import Mathlib

/-!
Verification of the note/session synchronization workflow of the er-LP
repository (src/src/store/dashboard/thunks.js and the heroSection slice).

The thunks are shallowly embedded as pure functions from a remote-adapter
environment (an oracle giving the outcome of every Firestore / storage
call) and a client state to a result record holding the thunk's outcome
(resolved, or rejected with an Error message), the final client state, and
the ordered trace of events: every Redux action dispatched and every
remote call issued.

Nested thunk dispatches (`dispatch(startLoadingNotes())` inside the
create/save/delete thunks) are fire-and-forget in the source: the returned
promise is not awaited, so the inner thunk's rejection cannot affect the
outer thunk's outcome.  The embedding runs the inner thunk to completion,
keeps its state effects and trace, and discards its outcome, which is
faithful for the state- and trace-level properties proved here (the inner
load touches neither the saving flag nor the active note).
-/

namespace ErLP

/-- Field values of a Firestore document body, as used by this app:
strings (title, body, date, ids) and lists of strings (imagesUrls). -/
inductive FieldValue where
  | str : String → FieldValue
  | strList : List String → FieldValue
deriving DecidableEq

/-- A document body: an ordered list of named fields. -/
abbrev Doc : Type := List (String × FieldValue)

/-- A journal note as held in client state.  `id` is absent (`none`)
before the store assigns one (thunks.js builds `newNote` without an id). -/
structure Note where
  id : Option String
  title : String
  body : String
  date : String
  imagesUrls : List String
deriving DecidableEq

/-- The JS object underlying a note, as a document body: the `id` field is
present exactly when the note carries one (mirrors spreading the note into
a plain object). -/
def noteToObject (n : Note) : Doc :=
  (match n.id with
   | some i => [("id", FieldValue.str i)]
   | none => []) ++
  [("title", FieldValue.str n.title),
   ("body", FieldValue.str n.body),
   ("date", FieldValue.str n.date),
   ("imagesUrls", FieldValue.strList n.imagesUrls)]

/-- `delete obj[k]`: drop every field named `k` from a document body. -/
def deleteField (d : Doc) (k : String) : Doc :=
  d.filter (fun p => p.1 != k)

/-- Field lookup in a document body (first match wins). -/
def docGet (d : Doc) (k : String) : Option FieldValue :=
  (d.find? (fun p => p.1 == k)).map (fun p => p.2)

/-- Modelled from the spec: the merge semantics of the remote store's
`setDocument(path, content, {merge: true})` (the document database is an
external collaborator, not part of the sources): fields of the written
body overwrite, remote fields absent from the body are preserved. -/
def mergeDoc (remote localDoc : Doc) : Doc :=
  localDoc ++ remote.filter (fun p => (docGet localDoc p.1).isNone)

/-- Redux actions dispatched by the dashboard thunks.  `sectionSet key c`
stands for the content-set action of the landing-page slice `key`. -/
inductive Action where
  | savingNewNote
  | setSaving
  | resetIsSaving
  | setCanceling
  | resetIsCanceling
  | setNotes (notes : List Note)
  | setActiveNote (note : Note)
  | setPhotosToActiveNote (urls : List String)
  | handleError (msg : String)
  | setActiveSection (content : Option Doc)
  | sectionSet (key : String) (content : Option Doc)
deriving DecidableEq

/-- Client state visible to the thunks: auth uid, the dashboard slice
(notes, active note, status flags, last error) and the landing-page
slices, summarized as per-key content plus the active section. -/
structure AppState where
  uid : Option String
  notes : List Note
  active : Option Note
  isSaving : Bool
  isCanceling : Bool
  errorMsg : Option String
  sections : List (String × Option Doc)
  activeSection : Option (Option Doc)
deriving DecidableEq

/-- Modelled from the spec: the Client State Store reducers (the
dashboardSlice and seven of the eight landing-page slice files are not
among the sources; §6 of the spec lists the actions: set/reset saving and
canceling flags, `setNotes(list)` replaces the collection,
`setActiveNote(note)`, `appendPhotosToActiveNote(urls)` appends to the
active note's attachment list, `reportError(message)`,
`setActiveSection(content)`, and one content-set action per section key).
The `sectionSet` case covers only dispatches that complete: the
heroSection reducer, which IS in the sources and throws on the payloads
`resetInfo` can feed it, is handled by the `dispatchThrowsMsg` guard
inside `resetInfo` (and embedded separately as `setHeroSectionInfo`), so
a `sectionSet` action is only ever applied here for the seven
spec-modelled throw-free slices. -/
def applyAction (s : AppState) (a : Action) : AppState :=
  match a with
  | Action.savingNewNote => { s with isSaving := true }
  | Action.setSaving => { s with isSaving := true }
  | Action.resetIsSaving => { s with isSaving := false }
  | Action.setCanceling => { s with isCanceling := true }
  | Action.resetIsCanceling => { s with isCanceling := false }
  | Action.setNotes ns => { s with notes := ns }
  | Action.setActiveNote n => { s with active := some n }
  | Action.setPhotosToActiveNote urls =>
      { s with active := s.active.map (fun n => { n with imagesUrls := n.imagesUrls ++ urls }) }
  | Action.handleError msg => { s with errorMsg := some msg }
  | Action.setActiveSection c => { s with activeSection := some c }
  | Action.sectionSet key c => { s with sections := (key, c) :: s.sections }

/-- Observable events of a thunk run, in order: dispatched actions,
remote-store calls, storage uploads, and the trigger of a nested
notes-collection reload. -/
inductive Event where
  | act (a : Action)
  | callSetDoc (path : String) (body : Doc) (merge : Bool)
  | callGetDoc (path : String)
  | callDeleteDoc (path : String)
  | callLoadNotes (uid : String)
  | callUpload (file : String)
  | triggerLoadNotes
deriving DecidableEq

/-- Outcome of a thunk's returned promise: resolved, or rejected with the
message of the `new Error(...)` it throws. -/
inductive TResult where
  | ok
  | error (msg : String)
deriving DecidableEq

/-- The remote adapters, as an oracle fixing the outcome of every call:
Firestore document writes/reads/deletes, the `loadNotes` helper, the
`fileUpload` helper, fresh document ids, and the clock
(`new Date().toLocaleString()`). -/
structure RemoteEnv where
  setDocR : String → Doc → Bool → Except String Unit
  getDocR : String → Except String (Option Doc)
  deleteDocR : String → Except String Unit
  loadNotesR : String → Except String (List Note)
  uploadR : String → Except String String
  newDocId : String → String
  nowString : String

/-- Result of running a thunk: its outcome, the final client state, and
the ordered event trace. -/
structure ThunkResult where
  result : TResult
  state : AppState
  trace : List Event
deriving DecidableEq

/-- JS template-literal interpolation of a possibly-undefined value:
`undefined` prints as the string "undefined". -/
def jsStr : Option String → String
  | none => "undefined"
  | some u => u

/-- JS truthiness test `!uid` on the auth uid: true for `undefined` and
for the empty string. -/
def isFalsyUid : Option String → Bool
  | none => true
  | some u => u == ""

/-- Path of the user's notes collection: `{uid}/journal/notes`. -/
def notesCollectionPath (uid : Option String) : String :=
  jsStr uid ++ "/journal/notes"

/-- Path of one note document: `{uid}/journal/notes/{noteId}`. -/
def noteDocPath (uid : Option String) (nid : Option String) : String :=
  jsStr uid ++ "/journal/notes/" ++ jsStr nid

/-- Path of one landing-page section document: `er_landing_page/{key}`. -/
def landingDocPath (sectionKey : String) : String :=
  "er_landing_page/" ++ sectionKey

/-- Message of the TypeError JS raises when the active note is absent and
the thunk reads `.id` of it (the exact wording is irrelevant to every
property proved here). -/
def jsNullIdMsg : String := "TypeError: cannot read id of null"

/-- `startLoadingNotes` of thunks.js: throws before any remote call when
the uid is falsy; otherwise fetches the user's notes via the `loadNotes`
helper and replaces the collection, reporting and re-raising on failure. -/
def startLoadingNotes (env : RemoteEnv) (s : AppState) : ThunkResult :=
  if isFalsyUid s.uid then
    { result := TResult.error "El UID del usuario no existe!", state := s, trace := [] }
  else
    match env.loadNotesR (jsStr s.uid) with
    | Except.ok notes =>
        { result := TResult.ok
        , state := applyAction s (Action.setNotes notes)
        , trace := [Event.callLoadNotes (jsStr s.uid), Event.act (Action.setNotes notes)] }
    | Except.error msg =>
        { result := TResult.error "Error cargando notas de la DB!"
        , state := applyAction s (Action.handleError msg)
        , trace := [Event.callLoadNotes (jsStr s.uid), Event.act (Action.handleError msg)] }

/-- The new note `startNewNote` builds from the current notes count:
placeholder title and body, current timestamp, empty attachment list, no
id yet. -/
def newNoteOf (env : RemoteEnv) (count : Nat) : Note :=
  { id := none
  , title := "Nota " ++ toString (count + 1)
  , body := "Body " ++ toString (count + 1)
  , date := env.nowString
  , imagesUrls := [] }

/-- `startNewNote` of thunks.js: dispatches `savingNewNote`, writes the
new note (without id) to a fresh document of `{uid}/journal/notes` with no
uid check, then on success assigns the id, fires the reload and sets the
active note; on failure reports and re-raises; `finally` resets the
saving flag. -/
def startNewNote (env : RemoteEnv) (s : AppState) : ThunkResult :=
  let s1 := applyAction s Action.savingNewNote
  let newNote := newNoteOf env s.notes.length
  let collPath := notesCollectionPath s1.uid
  let newId := env.newDocId collPath
  let docPath := collPath ++ "/" ++ newId
  match env.setDocR docPath (noteToObject newNote) false with
  | Except.ok _ =>
      let noteWithId := { newNote with id := some newId }
      let inner := startLoadingNotes env s1
      { result := TResult.ok
      , state := applyAction (applyAction inner.state (Action.setActiveNote noteWithId))
          Action.resetIsSaving
      , trace := [Event.act Action.savingNewNote,
                  Event.callSetDoc docPath (noteToObject newNote) false,
                  Event.triggerLoadNotes] ++ inner.trace ++
                 [Event.act (Action.setActiveNote noteWithId), Event.act Action.resetIsSaving] }
  | Except.error msg =>
      { result := TResult.error "Error guardando nueva entrada en la DB!"
      , state := applyAction (applyAction s1 (Action.handleError msg)) Action.resetIsSaving
      , trace := [Event.act Action.savingNewNote,
                  Event.callSetDoc docPath (noteToObject newNote) false,
                  Event.act (Action.handleError msg), Event.act Action.resetIsSaving] }

/-- `startSaveNotes` of thunks.js: sets the saving flag, copies the active
note minus its `id` field, writes it with `{merge: true}` at the note's
document path, fires the reload on success; reading `.id` of an absent
active note raises inside the `try` and is handled like any failure;
`finally` resets the saving flag. -/
def startSaveNotes (env : RemoteEnv) (s : AppState) : ThunkResult :=
  let s1 := applyAction s Action.setSaving
  match s1.active with
  | none =>
      { result := TResult.error "Error actualizando Note!!"
      , state := applyAction (applyAction s1 (Action.handleError jsNullIdMsg)) Action.resetIsSaving
      , trace := [Event.act Action.setSaving, Event.act (Action.handleError jsNullIdMsg),
                  Event.act Action.resetIsSaving] }
  | some activeNote =>
      let noteToFireStore := deleteField (noteToObject activeNote) "id"
      let docPath := noteDocPath s1.uid activeNote.id
      match env.setDocR docPath noteToFireStore true with
      | Except.ok _ =>
          let inner := startLoadingNotes env s1
          { result := TResult.ok
          , state := applyAction inner.state Action.resetIsSaving
          , trace := [Event.act Action.setSaving,
                      Event.callSetDoc docPath noteToFireStore true,
                      Event.triggerLoadNotes] ++ inner.trace ++ [Event.act Action.resetIsSaving] }
      | Except.error msg =>
          { result := TResult.error "Error actualizando Note!!"
          , state := applyAction (applyAction s1 (Action.handleError msg)) Action.resetIsSaving
          , trace := [Event.act Action.setSaving,
                      Event.callSetDoc docPath noteToFireStore true,
                      Event.act (Action.handleError msg), Event.act Action.resetIsSaving] }

/-- Outcome of `Promise.all` over the individual `fileUpload` calls:
every upload's URL in input order, or the message of a failing upload. -/
def uploadResults (env : RemoteEnv) : List String → Except String (List String)
  | [] => Except.ok []
  | f :: fs =>
      match env.uploadR f with
      | Except.error e => Except.error e
      | Except.ok u =>
          match uploadResults env fs with
          | Except.error e => Except.error e
          | Except.ok us => Except.ok (u :: us)

/-- `startUploadingFiles` of thunks.js: sets the saving flag, initiates an
upload for every file, gathers the URLs with `Promise.all`, and on success
dispatches them to the active note; on any failure reports and re-raises
with no dispatch of URLs; `finally` resets the saving flag. -/
def startUploadingFiles (env : RemoteEnv) (files : List String) (s : AppState) : ThunkResult :=
  let s1 := applyAction s Action.setSaving
  let t1 := Event.act Action.setSaving :: files.map Event.callUpload
  match uploadResults env files with
  | Except.ok photosUrls =>
      { result := TResult.ok
      , state := applyAction (applyAction s1 (Action.setPhotosToActiveNote photosUrls))
          Action.resetIsSaving
      , trace := t1 ++ [Event.act (Action.setPhotosToActiveNote photosUrls),
                        Event.act Action.resetIsSaving] }
  | Except.error msg =>
      { result := TResult.error "Error subiendo imagen!!"
      , state := applyAction (applyAction s1 (Action.handleError msg)) Action.resetIsSaving
      , trace := t1 ++ [Event.act (Action.handleError msg), Event.act Action.resetIsSaving] }

/-- `startDeletingNote` of thunks.js: sets the saving flag, deletes the
active note's document, fires the reload on success, reports and
re-raises on failure.  Unlike the other four operations it has no
`finally` block: no path dispatches `resetIsSaving`. -/
def startDeletingNote (env : RemoteEnv) (s : AppState) : ThunkResult :=
  let s1 := applyAction s Action.setSaving
  match s1.active with
  | none =>
      { result := TResult.error "Error eliminando nota!!"
      , state := applyAction s1 (Action.handleError jsNullIdMsg)
      , trace := [Event.act Action.setSaving, Event.act (Action.handleError jsNullIdMsg)] }
  | some noteActive =>
      let docPath := noteDocPath s1.uid noteActive.id
      match env.deleteDocR docPath with
      | Except.ok _ =>
          let inner := startLoadingNotes env s1
          { result := TResult.ok
          , state := inner.state
          , trace := [Event.act Action.setSaving, Event.callDeleteDoc docPath,
                      Event.triggerLoadNotes] ++ inner.trace }
      | Except.error msg =>
          { result := TResult.error "Error eliminando nota!!"
          , state := applyAction s1 (Action.handleError msg)
          , trace := [Event.act Action.setSaving, Event.callDeleteDoc docPath,
                      Event.act (Action.handleError msg)] }

/-- The static key-to-handler table of `resetInfo`: each of the eight
registered section keys maps to that section's content-set action
creator; every other key has no handler. -/
def idToDispatchMap (sectionKey : String) : Option (Option Doc → Action) :=
  if sectionKey = "navbar" then some (Action.sectionSet "navbar")
  else if sectionKey = "heroSection" then some (Action.sectionSet "heroSection")
  else if sectionKey = "history" then some (Action.sectionSet "history")
  else if sectionKey = "programStructure" then some (Action.sectionSet "programStructure")
  else if sectionKey = "expeditionGroup" then some (Action.sectionSet "expeditionGroup")
  else if sectionKey = "events" then some (Action.sectionSet "events")
  else if sectionKey = "organization" then some (Action.sectionSet "organization")
  else if sectionKey = "footer" then some (Action.sectionSet "footer")
  else none

/-- Message of the TypeError raised when the heroSection reducer reads
`.find` of the `undefined` payload of a missing document. -/
def jsUndefinedFindMsg : String := "TypeError: cannot read find of undefined"

/-- Message of the TypeError raised when the heroSection reducer calls
`.find` on a plain document object, which has no such method. -/
def jsObjectFindMsg : String := "TypeError: payload.find is not a function"

/-- Synchronous throw behavior of the content-set dispatch inside
`resetInfo`.  The heroSection reducer is in the sources
(src/unnamed/part_000): `setHeroSectionInfo` runs
`action.payload.find(...)`, and the payload `resetInfo` feeds it is
`docSnap.data()` — `undefined` for a missing document, a plain document
object otherwise, never an array — so for key "heroSection" the dispatch
throws a TypeError either way, before any slice-state update (the draft
is discarded on throw) and before the active-section dispatch.  The other
seven slice reducers are not among the sources and are modelled from the
spec as throw-free state updates. -/
def dispatchThrowsMsg (sectionKey : String) (payload : Option Doc) : Option String :=
  if sectionKey = "heroSection" then
    match payload with
    | none => some jsUndefinedFindMsg
    | some _ => some jsObjectFindMsg
  else none

/-- `resetInfo` of thunks.js: optionally sets the canceling flag, fetches
`er_landing_page/{key}` (a missing document yields `undefined` data, not
an error), and only when the key has a registered handler dispatches the
handler with the fetched content, sets the active section, and (when
`cancelled`) resets the canceling flag; an unknown key silently discards
the fetched content; a fetch failure is reported and re-raised.  When the
handler's reducer itself throws (the heroSection case, see
`dispatchThrowsMsg`), the throw happens inside the `try`: no section or
active-section update occurs, the TypeError's message is reported, the
thunk rejects, and the canceling flag is never reset. -/
def resetInfo (env : RemoteEnv) (sectionKey : String) (cancelled : Bool) (s : AppState) :
    ThunkResult :=
  let s1 := if cancelled then applyAction s Action.setCanceling else s
  let t1 := if cancelled then [Event.act Action.setCanceling] else []
  let docPath := landingDocPath sectionKey
  match env.getDocR docPath with
  | Except.error msg =>
      { result := TResult.error "Error reseteando la informacion!!"
      , state := applyAction s1 (Action.handleError msg)
      , trace := t1 ++ [Event.callGetDoc docPath, Event.act (Action.handleError msg)] }
  | Except.ok infoReset =>
      match idToDispatchMap sectionKey with
      | none =>
          { result := TResult.ok, state := s1, trace := t1 ++ [Event.callGetDoc docPath] }
      | some mkAct =>
          match dispatchThrowsMsg sectionKey infoReset with
          | some errMsg =>
              { result := TResult.error "Error reseteando la informacion!!"
              , state := applyAction s1 (Action.handleError errMsg)
              , trace := t1 ++ [Event.callGetDoc docPath, Event.act (Action.handleError errMsg)] }
          | none =>
              let s2 := applyAction (applyAction s1 (mkAct infoReset))
                  (Action.setActiveSection infoReset)
              { result := TResult.ok
              , state := if cancelled then applyAction s2 Action.resetIsCanceling else s2
              , trace := t1 ++ [Event.callGetDoc docPath, Event.act (mkAct infoReset),
                                Event.act (Action.setActiveSection infoReset)] ++
                         (if cancelled then [Event.act Action.resetIsCanceling] else []) }

/-- One element of the heroSection payload: an object carrying an `id`
field (the reducer searches on it) and its remaining content. -/
structure SectionItem where
  id : String
  content : String
deriving DecidableEq

/-- The `info` field of the heroSection slice. -/
structure HeroInfo where
  imageSection : Option SectionItem
  textSection : Option SectionItem
deriving DecidableEq

/-- State of the heroSection slice. -/
structure HeroSectionState where
  isSaving : Bool
  info : HeroInfo
deriving DecidableEq

/-- `setHeroSectionInfo` of the heroSection slice: stores the first
payload element whose id is "imageSection" and the first whose id is
"textSection" (`Array.prototype.find` yields `undefined` when none
matches). -/
def setHeroSectionInfo (state : HeroSectionState) (payload : List SectionItem) :
    HeroSectionState :=
  { state with info :=
      { imageSection := payload.find? (fun item => item.id == "imageSection")
      , textSection := payload.find? (fun item => item.id == "textSection") } }

/-- `setSavingHeroSection` of the heroSection slice. -/
def setSavingHeroSection (state : HeroSectionState) : HeroSectionState :=
  { state with isSaving := true }

/-- `resetSavingHeroSection` of the heroSection slice. -/
def resetSavingHeroSection (state : HeroSectionState) : HeroSectionState :=
  { state with isSaving := false }

/-- A concrete persisted note, for evaluating the thunks. -/
def noteA : Note :=
  { id := some "n1", title := "T", body := "B", date := "D", imagesUrls := ["u0"] }

/-- A concrete client state: authenticated user, `noteA` active. -/
def stateBase : AppState :=
  { uid := some "user1", notes := [], active := some noteA, isSaving := false
  , isCanceling := false, errorMsg := none, sections := [], activeSection := none }

/-- An environment where every remote call succeeds. -/
def envOk : RemoteEnv :=
  { setDocR := fun _ _ _ => Except.ok ()
  , getDocR := fun _ => Except.ok (some [("x", FieldValue.str "y")])
  , deleteDocR := fun _ => Except.ok ()
  , loadNotesR := fun _ => Except.ok [noteA]
  , uploadR := fun f => Except.ok ("url-" ++ f)
  , newDocId := fun _ => "abc123"
  , nowString := "1/1/2024" }

/-- An environment where every remote call fails with message "boom". -/
def envFail : RemoteEnv :=
  { setDocR := fun _ _ _ => Except.error "boom"
  , getDocR := fun _ => Except.error "boom"
  , deleteDocR := fun _ => Except.error "boom"
  , loadNotesR := fun _ => Except.error "boom"
  , uploadR := fun _ => Except.error "boom"
  , newDocId := fun _ => "abc123"
  , nowString := "1/1/2024" }

/-- An environment whose landing-page documents do not exist. -/
def envNotFound : RemoteEnv :=
  { envOk with getDocR := fun _ => Except.ok none }

/-- An environment where exactly the upload of file "f2" fails. -/
def envMixed : RemoteEnv :=
  { envOk with uploadR := fun f =>
      if f = "f2" then Except.error "boom" else Except.ok ("url-" ++ f) }

theorem startLoadingNotes_isSaving (env : RemoteEnv) (s : AppState) :
    (startLoadingNotes env s).state.isSaving = s.isSaving := by
  unfold startLoadingNotes
  split
  · rfl
  · cases env.loadNotesR (jsStr s.uid) <;> simp [applyAction]

/-- C1: for every environment, state and file list, CreateNote,
SaveActiveNote and UploadAttachments end with isSaving false on every path
(success and failure), and LoadNotes never changes the flag; but the claim
fails for DeleteActiveNote: a successful delete (concrete run below)
resolves its outcome with isSaving still true, and so does a failing one —
the thunk has no path that resets the flag. -/
theorem c1_saving_flag_reset (env : RemoteEnv) (s : AppState) (files : List String) :
    (startNewNote env s).state.isSaving = false ∧
    (startSaveNotes env s).state.isSaving = false ∧
    (startUploadingFiles env files s).state.isSaving = false ∧
    (startLoadingNotes env s).state.isSaving = s.isSaving ∧
    (startDeletingNote envOk stateBase).result = TResult.ok ∧
    (startDeletingNote envOk stateBase).state.isSaving = true ∧
    (startDeletingNote envFail stateBase).result = TResult.error "Error eliminando nota!!" ∧
    (startDeletingNote envFail stateBase).state.isSaving = true := by
  refine ⟨?_, ?_, ?_, startLoadingNotes_isSaving env s, by decide, by decide, by decide, by decide⟩
  · unfold startNewNote
    dsimp only
    split <;> simp [applyAction]
  · unfold startSaveNotes
    dsimp only
    split
    · simp [applyAction]
    · split <;> simp [applyAction]
  · unfold startUploadingFiles
    dsimp only
    split <;> simp [applyAction]

/-- A client state with no authenticated user id. -/
def stateNoUid : AppState := { stateBase with uid := none }

/-- C2 counterexample: with no user id present (and notes count 0),
CreateNote does not fail with a precondition error — here it resolves
successfully — and it does perform a remote store call: the trace contains
the setDoc call, at the path interpolating the missing uid as the literal
string "undefined". -/
theorem c2_counterexample :
    (startNewNote envOk stateNoUid).result = TResult.ok ∧
    Event.callSetDoc "undefined/journal/notes/abc123"
        (noteToObject (newNoteOf envOk 0)) false ∈ (startNewNote envOk stateNoUid).trace := by
  decide

/-- C2 (amended): CreateNote performs no user-id precondition check: for
every notes count, when the uid is absent it still issues the remote
setDoc call, at the path interpolating the literal "undefined"; the
operation that fails fast with the precondition error and no remote call
when the uid is missing is LoadNotes. -/
theorem c2_create_without_uid_calls_store (env : RemoteEnv) (s : AppState)
    (h : s.uid = none) :
    Event.callSetDoc
        ("undefined/journal/notes/" ++ env.newDocId "undefined/journal/notes")
        (noteToObject (newNoteOf env s.notes.length)) false ∈ (startNewNote env s).trace ∧
    (startLoadingNotes env s).result = TResult.error "El UID del usuario no existe!" ∧
    (startLoadingNotes env s).trace = [] := by
  refine ⟨?_, ?_, ?_⟩
  · unfold startNewNote
    dsimp only
    rw [show (applyAction s Action.savingNewNote).uid = s.uid from rfl, h]
    split <;> simp [notesCollectionPath, jsStr]
  · simp [startLoadingNotes, h, isFalsyUid]
  · simp [startLoadingNotes, h, isFalsyUid]

theorem c2_witness :
    stateNoUid.uid = none ∧
    (Event.callSetDoc
        ("undefined/journal/notes/" ++ envOk.newDocId "undefined/journal/notes")
        (noteToObject (newNoteOf envOk stateNoUid.notes.length)) false
        ∈ (startNewNote envOk stateNoUid).trace ∧
     (startLoadingNotes envOk stateNoUid).result
        = TResult.error "El UID del usuario no existe!" ∧
     (startLoadingNotes envOk stateNoUid).trace = []) :=
  ⟨rfl, c2_create_without_uid_calls_store envOk stateNoUid rfl⟩

theorem find?_filter_of_keep (l : List (String × FieldValue))
    (q : String × FieldValue → Bool) (k : String)
    (h : ∀ x ∈ l, (x.1 == k) = true → q x = true) :
    (l.filter q).find? (fun x => x.1 == k) = l.find? (fun x => x.1 == k) := by
  induction l with
  | nil => rfl
  | cons a as ih =>
      have ih2 := ih (fun x hx => h x (List.mem_cons_of_mem a hx))
      by_cases hq : q a = true
      · rw [List.filter_cons_of_pos hq]
        by_cases hp : (a.1 == k) = true
        · simp [List.find?, hp]
        · simp [List.find?, hp, ih2]
      · have hp : ¬(a.1 == k) = true := fun hp => hq (h a (List.mem_cons_self a as) hp)
        rw [List.filter_cons_of_neg (by simpa using hq)]
        simp [List.find?, hp, ih2]

theorem mergeDoc_preserves (remote localDoc : Doc) (k : String)
    (h : docGet localDoc k = none) :
    docGet (mergeDoc remote localDoc) k = docGet remote k := by
  have hfind : localDoc.find? (fun x => x.1 == k) = none := by
    unfold docGet at h
    exact Option.map_eq_none'.mp h
  unfold mergeDoc docGet
  rw [List.find?_append, hfind, Option.none_or]
  congr 1
  apply find?_filter_of_keep
  intro x hx hxk
  have hx1 : x.1 = k := by simpa using hxk
  rw [hx1, hfind]
  rfl

/-- C3: for every active note carrying an id, SaveActiveNote issues a
merge-true setDoc call at the path built from user id and note id, whose
body is the note object minus the id field: the body has no id field,
carries title, body, date and imagesUrls, and under the store's merge
semantics every remote field absent from that body is preserved. -/
theorem c3_save_body_excludes_id (env : RemoteEnv) (s : AppState) (note : Note)
    (u nid : String) (hu : s.uid = some u) (ha : s.active = some note)
    (hid : note.id = some nid) :
    Event.callSetDoc (u ++ "/journal/notes/" ++ nid)
        (deleteField (noteToObject note) "id") true ∈ (startSaveNotes env s).trace ∧
    docGet (deleteField (noteToObject note) "id") "id" = none ∧
    docGet (deleteField (noteToObject note) "id") "title" = some (FieldValue.str note.title) ∧
    docGet (deleteField (noteToObject note) "id") "body" = some (FieldValue.str note.body) ∧
    docGet (deleteField (noteToObject note) "id") "date" = some (FieldValue.str note.date) ∧
    docGet (deleteField (noteToObject note) "id") "imagesUrls"
        = some (FieldValue.strList note.imagesUrls) ∧
    (∀ remote : Doc, ∀ k : String, docGet (deleteField (noteToObject note) "id") k = none →
      docGet (mergeDoc remote (deleteField (noteToObject note) "id")) k = docGet remote k) := by
  refine ⟨?_, ?_, ?_, ?_, ?_, ?_, fun remote k hk => mergeDoc_preserves remote _ k hk⟩
  · unfold startSaveNotes
    dsimp only
    rw [show (applyAction s Action.setSaving).active = s.active from rfl, ha]
    dsimp only
    rw [show (applyAction s Action.setSaving).uid = s.uid from rfl]
    split <;> simp [noteDocPath, jsStr, hu, hid]
  · simp only [noteToObject, hid]
    rfl
  · simp only [noteToObject, hid]
    rfl
  · simp only [noteToObject, hid]
    rfl
  · simp only [noteToObject, hid]
    rfl
  · simp only [noteToObject, hid]
    rfl

theorem c3_witness :
    stateBase.uid = some "user1" ∧ stateBase.active = some noteA ∧ noteA.id = some "n1" ∧
    Event.callSetDoc ("user1" ++ "/journal/notes/" ++ "n1")
        (deleteField (noteToObject noteA) "id") true ∈ (startSaveNotes envOk stateBase).trace ∧
    docGet (deleteField (noteToObject noteA) "id") "id" = none ∧
    docGet (mergeDoc [("extra", FieldValue.str "kept")] (deleteField (noteToObject noteA) "id"))
        "extra" = docGet [("extra", FieldValue.str "kept")] "extra" :=
  ⟨rfl, rfl, rfl,
   (c3_save_body_excludes_id envOk stateBase noteA "user1" "n1" rfl rfl rfl).1,
   (c3_save_body_excludes_id envOk stateBase noteA "user1" "n1" rfl rfl rfl).2.1,
   (c3_save_body_excludes_id envOk stateBase noteA "user1" "n1" rfl rfl rfl).2.2.2.2.2.2
     [("extra", FieldValue.str "kept")] "extra" (by decide)⟩

theorem uploadResults_ok_forall₂ (env : RemoteEnv) (files urls : List String)
    (h : uploadResults env files = Except.ok urls) :
    List.Forall₂ (fun f u => env.uploadR f = Except.ok u) files urls := by
  induction files generalizing urls with
  | nil =>
      simp only [uploadResults, Except.ok.injEq] at h
      subst h
      exact List.Forall₂.nil
  | cons f fs ih =>
      unfold uploadResults at h
      cases hf : env.uploadR f with
      | error e => rw [hf] at h; cases h
      | ok u =>
          rw [hf] at h
          cases hr : uploadResults env fs with
          | error e => rw [hr] at h; cases h
          | ok us =>
              rw [hr] at h
              cases h
              exact List.Forall₂.cons hf (ih us hr)

theorem uploadResults_error_of_mem (env : RemoteEnv) (files : List String) (f : String)
    (hf : f ∈ files) (e : String) (he : env.uploadR f = Except.error e) :
    ∃ msg, uploadResults env files = Except.error msg := by
  induction files with
  | nil => cases hf
  | cons g gs ih =>
      unfold uploadResults
      cases hg : env.uploadR g with
      | error e2 => exact ⟨e2, rfl⟩
      | ok u =>
          rcases List.mem_cons.mp hf with h1 | h2
          · subst h1; rw [hg] at he; cases he
          · rcases ih h2 with ⟨msg, hm⟩
            rw [hm]
            exact ⟨msg, rfl⟩

theorem uploadResults_ok_of_all (env : RemoteEnv) (files : List String)
    (h : ∀ f ∈ files, ∃ u, env.uploadR f = Except.ok u) :
    ∃ urls, uploadResults env files = Except.ok urls := by
  induction files with
  | nil => exact ⟨[], rfl⟩
  | cons g gs ih =>
      rcases h g (List.mem_cons_self g gs) with ⟨u, hu⟩
      rcases ih (fun f hf => h f (List.mem_cons_of_mem g hf)) with ⟨us, hus⟩
      refine ⟨u :: us, ?_⟩
      unfold uploadResults
      rw [hu, hus]

/-- C4: UploadAttachments is all-or-nothing over the active note's
attachment list: when any single upload fails, the operation rejects and
the active note is unchanged (no URL applied); when every upload succeeds,
the gathered URL list corresponds one-to-one, in input order, to the files
(Forall₂ of per-file success), the operation resolves, and exactly those
URLs are appended to the active note's attachment list. -/
theorem c4_upload_all_or_nothing (env : RemoteEnv) (files : List String) (s : AppState)
    (note : Note) (ha : s.active = some note) :
    ((∃ f ∈ files, ∃ e, env.uploadR f = Except.error e) →
      (startUploadingFiles env files s).result = TResult.error "Error subiendo imagen!!" ∧
      (startUploadingFiles env files s).state.active = some note) ∧
    ((∀ f ∈ files, ∃ u, env.uploadR f = Except.ok u) →
      ∃ urls, uploadResults env files = Except.ok urls) ∧
    (∀ urls, uploadResults env files = Except.ok urls →
      List.Forall₂ (fun f u => env.uploadR f = Except.ok u) files urls ∧
      (startUploadingFiles env files s).result = TResult.ok ∧
      (startUploadingFiles env files s).state.active =
        some { note with imagesUrls := note.imagesUrls ++ urls }) := by
  refine ⟨?_, uploadResults_ok_of_all env files, ?_⟩
  · rintro ⟨f, hf, e, he⟩
    rcases uploadResults_error_of_mem env files f hf e he with ⟨msg, hm⟩
    unfold startUploadingFiles
    rw [hm]
    simp [applyAction, ha]
  · intro urls hok
    refine ⟨uploadResults_ok_forall₂ env files urls hok, ?_, ?_⟩
    · unfold startUploadingFiles
      rw [hok]
    · unfold startUploadingFiles
      rw [hok]
      simp [applyAction, ha]

theorem c4_witness :
    stateBase.active = some noteA ∧
    ((startUploadingFiles envMixed ["f1", "f2", "f3"] stateBase).result
        = TResult.error "Error subiendo imagen!!" ∧
     (startUploadingFiles envMixed ["f1", "f2", "f3"] stateBase).state.active = some noteA) ∧
    ((startUploadingFiles envOk ["a", "b"] stateBase).result = TResult.ok ∧
     (startUploadingFiles envOk ["a", "b"] stateBase).state.active
        = some { noteA with imagesUrls := noteA.imagesUrls ++ ["url-a", "url-b"] }) := by
  refine ⟨rfl, ?_, ?_⟩
  · exact (c4_upload_all_or_nothing envMixed ["f1", "f2", "f3"] stateBase noteA rfl).1
      ⟨"f2", by decide, "boom", rfl⟩
  · have h := (c4_upload_all_or_nothing envOk ["a", "b"] stateBase noteA rfl).2.2
      ["url-a", "url-b"] rfl
    exact ⟨h.2.1, h.2.2⟩

/-- C5: UploadAttachments on the empty file sequence resolves
successfully; the run dispatches exactly the saving-flag set, an (empty,
hence effect-free) URL append, and the saving-flag reset, and the final
state is the initial one with isSaving false — notes, active note and its
attachment list, canceling flag, error and sections all unchanged. -/
theorem c5_upload_empty_noop (env : RemoteEnv) (s : AppState) :
    startUploadingFiles env [] s =
      { result := TResult.ok
      , state := { s with isSaving := false }
      , trace := [Event.act Action.setSaving, Event.act (Action.setPhotosToActiveNote []),
                  Event.act Action.resetIsSaving] } := by
  unfold startUploadingFiles
  cases s with
  | mk uid notes active isSaving isCanceling errorMsg sections activeSection =>
      cases active <;> simp [uploadResults, applyAction]

/-- C6: for every section key with no registered handler, ResetSectionInfo
with cancelled true and a successful fetch resolves as a silent no-op: the
remote fetch occurs, the trace contains no content-set and no
active-section action (it is exactly the canceling-flag set and the fetch),
and the final state is the initial one with isCanceling stuck at true. -/
theorem c6_unknown_section_silent_noop (env : RemoteEnv) (s : AppState) (key : String)
    (d : Option Doc) (hmap : idToDispatchMap key = none)
    (hget : env.getDocR (landingDocPath key) = Except.ok d) :
    resetInfo env key true s =
      { result := TResult.ok
      , state := { s with isCanceling := true }
      , trace := [Event.act Action.setCanceling, Event.callGetDoc (landingDocPath key)] } := by
  unfold resetInfo
  dsimp only
  rw [hget, hmap]
  simp [applyAction]

theorem c6_witness :
    idToDispatchMap "unknown_key" = none ∧
    envOk.getDocR (landingDocPath "unknown_key") = Except.ok (some [("x", FieldValue.str "y")]) ∧
    resetInfo envOk "unknown_key" true stateBase =
      { result := TResult.ok
      , state := { stateBase with isCanceling := true }
      , trace := [Event.act Action.setCanceling,
                  Event.callGetDoc (landingDocPath "unknown_key")] } :=
  ⟨rfl, rfl, c6_unknown_section_silent_noop envOk stateBase "unknown_key" _ rfl rfl⟩

/-- C7: every one of the six thunks, on a failure of the adapter call it
performs, dispatches the generic error-report action carrying the adapter
failure's message and rejects with a fresh Error of its own message —
none of them swallows an adapter failure silently. -/
theorem c7_adapter_failures_reported (env : RemoteEnv) (s : AppState) (msg : String) :
    (env.setDocR
        (notesCollectionPath s.uid ++ "/" ++ env.newDocId (notesCollectionPath s.uid))
        (noteToObject (newNoteOf env s.notes.length)) false = Except.error msg →
      Event.act (Action.handleError msg) ∈ (startNewNote env s).trace ∧
      (startNewNote env s).result = TResult.error "Error guardando nueva entrada en la DB!") ∧
    (isFalsyUid s.uid = false → env.loadNotesR (jsStr s.uid) = Except.error msg →
      Event.act (Action.handleError msg) ∈ (startLoadingNotes env s).trace ∧
      (startLoadingNotes env s).result = TResult.error "Error cargando notas de la DB!") ∧
    (∀ note, s.active = some note →
      env.setDocR (noteDocPath s.uid note.id) (deleteField (noteToObject note) "id") true
          = Except.error msg →
      Event.act (Action.handleError msg) ∈ (startSaveNotes env s).trace ∧
      (startSaveNotes env s).result = TResult.error "Error actualizando Note!!") ∧
    (∀ files, uploadResults env files = Except.error msg →
      Event.act (Action.handleError msg) ∈ (startUploadingFiles env files s).trace ∧
      (startUploadingFiles env files s).result = TResult.error "Error subiendo imagen!!") ∧
    (∀ note, s.active = some note →
      env.deleteDocR (noteDocPath s.uid note.id) = Except.error msg →
      Event.act (Action.handleError msg) ∈ (startDeletingNote env s).trace ∧
      (startDeletingNote env s).result = TResult.error "Error eliminando nota!!") ∧
    (∀ key cancelled, env.getDocR (landingDocPath key) = Except.error msg →
      Event.act (Action.handleError msg) ∈ (resetInfo env key cancelled s).trace ∧
      (resetInfo env key cancelled s).result
          = TResult.error "Error reseteando la informacion!!") := by
  refine ⟨?_, ?_, ?_, ?_, ?_, ?_⟩
  · intro hfail
    unfold startNewNote
    dsimp only
    rw [show (applyAction s Action.savingNewNote).uid = s.uid from rfl, hfail]
    simp
  · intro hu hfail
    unfold startLoadingNotes
    rw [hu, hfail]
    simp
  · intro note ha hfail
    unfold startSaveNotes
    dsimp only
    rw [show (applyAction s Action.setSaving).active = s.active from rfl, ha]
    dsimp only
    rw [show (applyAction s Action.setSaving).uid = s.uid from rfl, hfail]
    simp
  · intro files hfail
    unfold startUploadingFiles
    rw [hfail]
    simp
  · intro note ha hfail
    unfold startDeletingNote
    dsimp only
    rw [show (applyAction s Action.setSaving).active = s.active from rfl, ha]
    dsimp only
    rw [show (applyAction s Action.setSaving).uid = s.uid from rfl, hfail]
    simp
  · intro key cancelled hfail
    unfold resetInfo
    dsimp only
    rw [hfail]
    cases cancelled <;> simp

theorem c7_witness :
    (Event.act (Action.handleError "boom") ∈ (startNewNote envFail stateBase).trace ∧
      (startNewNote envFail stateBase).result
        = TResult.error "Error guardando nueva entrada en la DB!") ∧
    (Event.act (Action.handleError "boom") ∈ (startLoadingNotes envFail stateBase).trace ∧
      (startLoadingNotes envFail stateBase).result
        = TResult.error "Error cargando notas de la DB!") ∧
    (Event.act (Action.handleError "boom") ∈ (startSaveNotes envFail stateBase).trace ∧
      (startSaveNotes envFail stateBase).result = TResult.error "Error actualizando Note!!") ∧
    (Event.act (Action.handleError "boom") ∈ (startUploadingFiles envFail ["f1"] stateBase).trace ∧
      (startUploadingFiles envFail ["f1"] stateBase).result
        = TResult.error "Error subiendo imagen!!") ∧
    (Event.act (Action.handleError "boom") ∈ (startDeletingNote envFail stateBase).trace ∧
      (startDeletingNote envFail stateBase).result = TResult.error "Error eliminando nota!!") ∧
    (Event.act (Action.handleError "boom") ∈ (resetInfo envFail "navbar" true stateBase).trace ∧
      (resetInfo envFail "navbar" true stateBase).result
        = TResult.error "Error reseteando la informacion!!") := by
  have h := c7_adapter_failures_reported envFail stateBase "boom"
  exact ⟨h.1 rfl, h.2.1 rfl rfl, h.2.2.1 noteA rfl rfl, h.2.2.2.1 ["f1"] rfl,
         h.2.2.2.2.1 noteA rfl rfl, h.2.2.2.2.2 "navbar" true rfl⟩

theorem startLoadingNotes_no_trigger (env : RemoteEnv) (s : AppState) :
    Event.triggerLoadNotes ∉ (startLoadingNotes env s).trace := by
  unfold startLoadingNotes
  split
  · simp
  · cases env.loadNotesR (jsStr s.uid) <;> simp

/-- C8: a successful CreateNote (the store write of the freshly-built note
succeeded, the store-assigned id non-empty) resolves, sets as active note
exactly the note built with title "Nota {n+1}", body "Body {n+1}" for n
the current notes count, the current timestamp, an empty attachment list,
and the store-assigned id; the active note's id is non-empty, and the
notes-collection reload is triggered exactly once. -/
theorem c8_create_success (env : RemoteEnv) (s : AppState)
    (hok : env.setDocR
        (notesCollectionPath s.uid ++ "/" ++ env.newDocId (notesCollectionPath s.uid))
        (noteToObject (newNoteOf env s.notes.length)) false = Except.ok ())
    (hne : env.newDocId (notesCollectionPath s.uid) ≠ "") :
    (startNewNote env s).result = TResult.ok ∧
    (startNewNote env s).state.active =
      some { id := some (env.newDocId (notesCollectionPath s.uid))
           , title := "Nota " ++ toString (s.notes.length + 1)
           , body := "Body " ++ toString (s.notes.length + 1)
           , date := env.nowString
           , imagesUrls := [] } ∧
    (∃ i, (startNewNote env s).state.active.bind Note.id = some i ∧ i ≠ "") ∧
    (startNewNote env s).trace.count Event.triggerLoadNotes = 1 := by
  have htr := startLoadingNotes_no_trigger env (applyAction s Action.savingNewNote)
  unfold startNewNote
  dsimp only
  rw [show (applyAction s Action.savingNewNote).uid = s.uid from rfl, hok]
  refine ⟨rfl, ?_, ?_, ?_⟩
  · simp [applyAction, newNoteOf]
  · refine ⟨env.newDocId (notesCollectionPath s.uid), ?_, hne⟩
    simp [applyAction, newNoteOf]
  · simp [List.count_append, List.count_cons, List.count_eq_zero.mpr htr]

theorem c8_witness :
    envOk.setDocR
        (notesCollectionPath stateBase.uid ++ "/"
          ++ envOk.newDocId (notesCollectionPath stateBase.uid))
        (noteToObject (newNoteOf envOk stateBase.notes.length)) false = Except.ok () ∧
    envOk.newDocId (notesCollectionPath stateBase.uid) ≠ "" ∧
    (startNewNote envOk stateBase).result = TResult.ok ∧
    (startNewNote envOk stateBase).state.active =
      some { id := some (envOk.newDocId (notesCollectionPath stateBase.uid))
           , title := "Nota " ++ toString (stateBase.notes.length + 1)
           , body := "Body " ++ toString (stateBase.notes.length + 1)
           , date := envOk.nowString
           , imagesUrls := [] } ∧
    (startNewNote envOk stateBase).trace.count Event.triggerLoadNotes = 1 := by
  have h := c8_create_success envOk stateBase rfl (by decide)
  exact ⟨rfl, by decide, h.1, h.2.1, h.2.2.2⟩

/-- C9 counterexample: at the registered key "heroSection" with a missing
remote document and cancelled true, ResetSectionInfo does NOT treat the
fetch as a success: it rejects, no active-section action fires, the
TypeError of the heroSection reducer (reading .find of the undefined
payload) is reported, and isCanceling stays stuck at true — refuting the
claim's universal quantification over registered keys. -/
theorem c9_counterexample :
    (resetInfo envNotFound "heroSection" true stateBase).result
        = TResult.error "Error reseteando la informacion!!" ∧
    Event.act (Action.setActiveSection none)
        ∉ (resetInfo envNotFound "heroSection" true stateBase).trace ∧
    Event.act (Action.handleError jsUndefinedFindMsg)
        ∈ (resetInfo envNotFound "heroSection" true stateBase).trace ∧
    (resetInfo envNotFound "heroSection" true stateBase).state.isCanceling = true := by
  decide

/-- C9 (amended): for every registered section key other than heroSection,
when the remote document does not exist ResetSectionInfo treats the run as
a success: it resolves, dispatches the section handler and the
active-section action with the undefined content, and when cancelled was
true the canceling flag ends false.  For heroSection — whose reducer, in
the sources, calls .find on the payload — the undefined payload of the
missing document makes the dispatch throw: the TypeError is caught and
reported, the operation rejects, no active-section action fires, and when
cancelled was true isCanceling stays true. -/
theorem c9_missing_doc (env : RemoteEnv) (s : AppState) (key : String)
    (mkAct : Option Doc → Action) (cancelled : Bool) :
    (idToDispatchMap key = some mkAct → key ≠ "heroSection" →
      env.getDocR (landingDocPath key) = Except.ok none →
      (resetInfo env key cancelled s).result = TResult.ok ∧
      Event.act (mkAct none) ∈ (resetInfo env key cancelled s).trace ∧
      Event.act (Action.setActiveSection none) ∈ (resetInfo env key cancelled s).trace ∧
      (cancelled = true → (resetInfo env key cancelled s).state.isCanceling = false)) ∧
    (env.getDocR (landingDocPath "heroSection") = Except.ok none →
      (resetInfo env "heroSection" cancelled s).result
          = TResult.error "Error reseteando la informacion!!" ∧
      Event.act (Action.handleError jsUndefinedFindMsg)
          ∈ (resetInfo env "heroSection" cancelled s).trace ∧
      Event.act (Action.setActiveSection none)
          ∉ (resetInfo env "heroSection" cancelled s).trace ∧
      (cancelled = true → (resetInfo env "heroSection" cancelled s).state.isCanceling = true)) := by
  constructor
  · intro hmap hne hget
    unfold resetInfo
    dsimp only
    rw [hget, hmap]
    dsimp only
    rw [show dispatchThrowsMsg key none = none by simp [dispatchThrowsMsg, hne]]
    cases cancelled <;> simp [applyAction]
  · intro hget
    unfold resetInfo
    dsimp only
    rw [hget]
    rw [show idToDispatchMap "heroSection" = some (Action.sectionSet "heroSection") from rfl]
    dsimp only
    rw [show dispatchThrowsMsg "heroSection" none = some jsUndefinedFindMsg from rfl]
    cases cancelled <;> simp [applyAction, jsUndefinedFindMsg]

theorem c9_witness :
    idToDispatchMap "navbar" = some (Action.sectionSet "navbar") ∧
    ("navbar" : String) ≠ "heroSection" ∧
    envNotFound.getDocR (landingDocPath "navbar") = Except.ok none ∧
    ((resetInfo envNotFound "navbar" true stateBase).result = TResult.ok ∧
     Event.act (Action.sectionSet "navbar" none)
        ∈ (resetInfo envNotFound "navbar" true stateBase).trace ∧
     Event.act (Action.setActiveSection none)
        ∈ (resetInfo envNotFound "navbar" true stateBase).trace ∧
     (resetInfo envNotFound "navbar" true stateBase).state.isCanceling = false) ∧
    envNotFound.getDocR (landingDocPath "heroSection") = Except.ok none ∧
    ((resetInfo envNotFound "heroSection" true stateBase).result
        = TResult.error "Error reseteando la informacion!!" ∧
     Event.act (Action.handleError jsUndefinedFindMsg)
        ∈ (resetInfo envNotFound "heroSection" true stateBase).trace ∧
     (resetInfo envNotFound "heroSection" true stateBase).state.isCanceling = true) := by
  have h := c9_missing_doc envNotFound stateBase "navbar" (Action.sectionSet "navbar") true
  have ha := h.1 rfl (by decide) rfl
  have hb := h.2 rfl
  exact ⟨rfl, by decide, rfl, ⟨ha.1, ha.2.1, ha.2.2.1, ha.2.2.2 rfl⟩, rfl,
         ⟨hb.1, hb.2.1, hb.2.2.2 rfl⟩⟩

/-- C10: the heroSection content-set handler searches its payload sequence
by the id field: the stored imageSection becomes the first payload element
with id "imageSection" and the stored textSection the first with id
"textSection"; each becomes undefined when no element of the payload
carries that id; the slice's saving flag is untouched. -/
theorem c10_hero_section_handler (st : HeroSectionState) (payload l1 l2 : List SectionItem)
    (x : SectionItem) :
    ((∀ y ∈ payload, y.id ≠ "imageSection") →
      (setHeroSectionInfo st payload).info.imageSection = none) ∧
    ((∀ y ∈ payload, y.id ≠ "textSection") →
      (setHeroSectionInfo st payload).info.textSection = none) ∧
    (payload = l1 ++ x :: l2 → x.id = "imageSection" → (∀ y ∈ l1, y.id ≠ "imageSection") →
      (setHeroSectionInfo st payload).info.imageSection = some x) ∧
    (payload = l1 ++ x :: l2 → x.id = "textSection" → (∀ y ∈ l1, y.id ≠ "textSection") →
      (setHeroSectionInfo st payload).info.textSection = some x) ∧
    (setHeroSectionInfo st payload).isSaving = st.isSaving := by
  refine ⟨?_, ?_, ?_, ?_, rfl⟩
  · intro hnone
    unfold setHeroSectionInfo
    dsimp only
    rw [List.find?_eq_none]
    intro y hy
    simpa using hnone y hy
  · intro hnone
    unfold setHeroSectionInfo
    dsimp only
    rw [List.find?_eq_none]
    intro y hy
    simpa using hnone y hy
  · intro hsplit hx hl1
    unfold setHeroSectionInfo
    dsimp only
    subst hsplit
    rw [List.find?_append]
    have h1 : List.find? (fun item => item.id == "imageSection") l1 = none := by
      rw [List.find?_eq_none]
      intro y hy
      simpa using hl1 y hy
    rw [h1, Option.none_or]
    simp [List.find?, hx]
  · intro hsplit hx hl1
    unfold setHeroSectionInfo
    dsimp only
    subst hsplit
    rw [List.find?_append]
    have h1 : List.find? (fun item => item.id == "textSection") l1 = none := by
      rw [List.find?_eq_none]
      intro y hy
      simpa using hl1 y hy
    rw [h1, Option.none_or]
    simp [List.find?, hx]

theorem c10_witness :
    (setHeroSectionInfo { isSaving := false, info := { imageSection := none, textSection := none } }
        [{ id := "foo", content := "a" }, { id := "imageSection", content := "b" },
         { id := "imageSection", content := "c" }]).info.imageSection
      = some { id := "imageSection", content := "b" } ∧
    (setHeroSectionInfo { isSaving := false, info := { imageSection := none, textSection := none } }
        [{ id := "foo", content := "a" }, { id := "imageSection", content := "b" },
         { id := "imageSection", content := "c" }]).info.textSection = none := by
  have h := c10_hero_section_handler
    { isSaving := false, info := { imageSection := none, textSection := none } }
    [{ id := "foo", content := "a" }, { id := "imageSection", content := "b" },
     { id := "imageSection", content := "c" }]
    [{ id := "foo", content := "a" }]
    [{ id := "imageSection", content := "c" }]
    { id := "imageSection", content := "b" }
  exact ⟨h.2.2.1 rfl rfl (by decide), h.2.1 (by decide)⟩

end ErLP
